import Mathlib

/-!
Shallow embedding of the article-scraping core of `WebScraping_Crawler.py`
(class `MultiPage_WebCrawler`): the page-list resolution (`get_pages_url_list`),
the per-article extraction helpers (`_local_get_content_sep`,
`_local_get_banner_image_sep`, `_local_get_images_sep`) and the batch driver
(`get_articles`).

External collaborators are modelled opaquely:
* the page fetcher (`requests.get` / Selenium behind `_local_web_scraping`)
  is a parameter `fetch : String → Except Unit Soup`; `.error` models the
  fetch raising an exception;
* the DOM query engine (BeautifulSoup) is a `Soup` structure whose fields
  are the query functions the source calls;
* `urllib.parse.urljoin` is a parameter `urljoin : String → String → String`;
* `self.url.format(i)` (template substitution) is a parameter
  `urlFormat : Int → String`.

Python exceptions are modelled by `Except Unit`; `try/except` blocks become
matches on `Except` values.
-/

/-! ### Python string primitives used by the source -/

/-- Python `str.split()` with no separator: split on runs of whitespace and
drop empty fragments. Structural recursion over the character list. -/
def pySplitGo : List Char → List Char → List String
  | [], cur => if cur.isEmpty then [] else [String.mk cur.reverse]
  | c :: cs, cur =>
    if c.isWhitespace then
      if cur.isEmpty then pySplitGo cs [] else String.mk cur.reverse :: pySplitGo cs []
    else pySplitGo cs (c :: cur)

/-- Python `s.split()` (whitespace split, empties dropped). -/
def pySplit (s : String) : List String := pySplitGo s.data []

/-- Python `sep.join(xs)`. -/
def pyJoin (sep : String) : List String → String
  | [] => ""
  | [x] => x
  | x :: xs => x ++ sep ++ pyJoin sep xs

/-- Python `s.startswith(p)`: `p` is a prefix of `s`. -/
def pyStartsWith (s p : String) : Bool := p.data.isPrefixOf s.data

/-- Python `s.endswith(p)`: `p` is a suffix of `s`. -/
def pyEndsWith (s p : String) : Bool := p.data.reverse.isPrefixOf s.data.reverse

/-- Python `s.lower()`. -/
def pyLower (s : String) : String := String.mk (s.data.map Char.toLower)

/-- Python `==` between a list value and a string value. In Python, values of
different types are never equal, so this is constantly `false`. It embeds the
guard `if content_return == '':` in `get_articles`, where `content_return`
is the token *list* produced by `str.split()`. -/
def listEqString (_xs : List String) (_s : String) : Bool := false

/-- Python `list(set(pages_list))`: the distinct elements of the list, in an
order the source does not guarantee; modelled as first-occurrence
deduplication. -/
def pyListSet (l : List String) : List String := l.dedup

/-- Python truthiness of the optional `custom_pageindex_list` argument:
`None` and the empty list are falsy (`if custom_pageindex_list:`). -/
def pyTruthy : Option (List Int) → Bool
  | none => false
  | some l => !l.isEmpty

/-- Python `range(start, stop, step)` as a list. `step = 0` raises
`ValueError`. For `step > 0` the length is `max 0 ⌈(stop-start)/step⌉`,
mirrored here by floor division (`Int.fdiv` is Python `//`); the negative
case mirrors the descending range. -/
def pyRange (start stop step : Int) : Except Unit (List Int) :=
  if step = 0 then .error ()
  else if 0 < step then
    .ok ((List.range ((stop - start + step - 1).fdiv step).toNat).map
      (fun (k : Nat) => start + step * (k : Int)))
  else
    .ok ((List.range ((start - stop + (-step) - 1).fdiv (-step)).toNat).map
      (fun (k : Nat) => start + step * (k : Int)))

/-- `tqdm(xs, desc=...)` iterates over exactly the elements of `xs`; the
wrapper only displays progress. -/
def tqdm {α : Type} (l : List α) : List α := l

/-! ### DOM model (the BeautifulSoup collaborator, opaque) -/

/-- An `<img>` element as used by the source: only its attribute lookup
(`img['src']`) is consulted. `none` models a missing attribute
(Python `KeyError`). -/
structure Img where
  attr : String → Option String

/-- A DOM element as used by the source: `el.text`, `el.stripped_strings`,
attribute subscripting `el[key]` (`none` models `KeyError`), and
`el.find_all('img')`. -/
structure Element where
  text : String
  strippedStrings : List String
  attr : String → Option String
  findAllImg : List Img

/-- A parsed document (BeautifulSoup object) as used by the source:
`soup.find(tag, class_=cls)` (first match or `None`), `soup.find()` (first
element of the document or `None`), `soup.find_all('a', class_=cls,
href=True)` (modelled by the list of `href` values, since the source only
reads and rewrites `read_more['href']`), and `soup.title`. -/
structure Soup where
  find : Option String → Option String → Option Element
  findFirst : Option Element
  findAllAHref : Option String → List String
  title : Option Element

/-! ### Extraction helpers (`_local_*_sep` methods) -/

/-- Embeds `MultiPage_WebCrawler._local_get_content_sep`. The `try` block
reads the title selector then the content selector; if either `find`
returns `None` (so `.stripped_strings` / `.text` raises), the `except`
block recomputes *both*: `title = soup.title.text` and
`content = soup.find().text.split()`. If `soup.title` or `soup.find()` is
itself `None`, the `except` block raises (`AttributeError`), modelled by
`.error`. -/
def local_get_content_sep (soup : Soup) (title_tag title_class
    content_area_tag content_area_class : Option String) :
    Except Unit (String × List String) :=
  match soup.find title_tag title_class, soup.find content_area_tag content_area_class with
  | some t, some c => .ok (pyJoin " " t.strippedStrings, pySplit c.text)
  | _, _ =>
    match soup.title, soup.findFirst with
    | some ti, some fe => .ok (ti.text, pySplit fe.text)
    | _, _ => .error ()

/-- Embeds `MultiPage_WebCrawler._local_get_banner_image_sep`:
`soup.find('img', class_=banner_class)[banner_tag]`. If no image matches,
`find` returns `None` and the subscript raises `TypeError`; if the matched
image lacks the attribute, the subscript raises `KeyError`. Both are
modelled by `.error`. There is no code path returning an "absent" banner. -/
def local_get_banner_image_sep (soup : Soup) (banner_tag : String)
    (banner_class : Option String) : Except Unit String :=
  match soup.find (some "img") banner_class with
  | none => .error ()
  | some el =>
    match el.attr banner_tag with
    | none => .error ()
    | some v => .ok v

/-- The filter `img['src'].lower().endswith(('.jpg', '.jpeg', '.png'))`
applied to an already-lowercased source string. -/
def lowerEndsWithImageExt (s : String) : Bool :=
  pyEndsWith s ".jpg" || pyEndsWith s ".jpeg" || pyEndsWith s ".png"

/-- Embeds `MultiPage_WebCrawler._local_get_images_sep`: find the image
area (`None` makes the following `.find_all` raise), then collect
`img['src']` for every contained image whose lowercased source ends in an
image extension. A contained image with no `src` raises `KeyError`. -/
def local_get_images_sep (soup : Soup) (image_area_tag image_area_class : Option String) :
    Except Unit (List String) :=
  match soup.find image_area_tag image_area_class with
  | none => .error ()
  | some area =>
    area.findAllImg.foldlM (fun images img =>
      match img.attr "src" with
      | none => .error ()
      | some src =>
        .ok (if lowerEndsWithImageExt (pyLower src) then images ++ [src] else images)) []

/-! ### Page-list resolution (`get_pages_url_list`) -/

/-- The per-href rewrite in `get_pages_url_list`:
`if not read_more['href'].startswith('http'): read_more['href'] =
urljoin(url, read_more['href'])`, then the (possibly rewritten) href is
appended. Note the test is the literal string prefix `'http'`. -/
def resolveHref (urljoin : String → String → String) (url href : String) : String :=
  if pyStartsWith href "http" then href else urljoin url href

/-- The body shared by all four branches of `get_pages_url_list`: for each
page index, format the template, fetch the listing page (a raise aborts
the whole resolution) and append every matched anchor's resolved href.
The second accumulator records the fetched listing-page URLs, making the
number of fetch calls observable. -/
def pagesLoop (fetch : String → Except Unit Soup) (urljoin : String → String → String)
    (urlFormat : Int → String) (a_class : Option String) :
    List Int → List String → List String → Except Unit (List String × List String)
  | [], pages_list, fetched => .ok (pages_list, fetched)
  | i :: rest, pages_list, fetched =>
    match fetch (urlFormat i) with
    | .error e => .error e
    | .ok soup =>
      pagesLoop fetch urljoin urlFormat a_class rest
        (pages_list ++ (soup.findAllAHref a_class).map (resolveHref urljoin (urlFormat i)))
        (fetched ++ [urlFormat i])

/-- Embeds `MultiPage_WebCrawler.get_pages_url_list` up to (but not
including) the final `list(set(pages_list))`, mirroring the source's
four-way duplication over `show_progressbar` and
`custom_pageindex_list` (an empty custom list is falsy and selects the
numeric range). Returns the accumulated `pages_list` together with the
list of listing-page URLs that were fetched. -/
def get_pages_url_list_run (fetch : String → Except Unit Soup)
    (urljoin : String → String → String) (urlFormat : Int → String)
    (show_progressbar : Bool) (start_page end_page step_page : Int)
    (a_class : Option String) (custom_pageindex_list : Option (List Int)) :
    Except Unit (List String × List String) :=
  if show_progressbar then
    if pyTruthy custom_pageindex_list then
      pagesLoop fetch urljoin urlFormat a_class (tqdm (custom_pageindex_list.getD [])) [] []
    else
      match pyRange start_page (end_page + 1) step_page with
      | .error e => .error e
      | .ok idx => pagesLoop fetch urljoin urlFormat a_class (tqdm idx) [] []
  else
    if pyTruthy custom_pageindex_list then
      pagesLoop fetch urljoin urlFormat a_class (custom_pageindex_list.getD []) [] []
    else
      match pyRange start_page (end_page + 1) step_page with
      | .error e => .error e
      | .ok idx => pagesLoop fetch urljoin urlFormat a_class idx [] []

/-- Embeds `MultiPage_WebCrawler.get_pages_url_list`: the value the method
returns, `list(set(pages_list))`. -/
def get_pages_url_list (fetch : String → Except Unit Soup)
    (urljoin : String → String → String) (urlFormat : Int → String)
    (show_progressbar : Bool) (start_page end_page step_page : Int)
    (a_class : Option String) (custom_pageindex_list : Option (List Int)) :
    Except Unit (List String) :=
  match get_pages_url_list_run fetch urljoin urlFormat show_progressbar
      start_page end_page step_page a_class custom_pageindex_list with
  | .error e => .error e
  | .ok p => .ok (pyListSet p.1)

/-! ### Batch driver (`get_articles`) -/

/-- The selector configuration dictionary `tag_dict` expected by
`get_articles` (the `web_tag` of the docstring example). All keys the
method subscripts are modelled as fields; class selectors admit `None`. -/
structure TagDict where
  start_page : Int
  end_page : Int
  step_page : Int
  a_class_in_PageList : Option String
  title_tag_in_ArticlePage : Option String
  title_class_in_ArticlePage : Option String
  content_area_tag_in_ArticlePage : Option String
  content_area_class_in_ArticlePage : Option String
  banner_tag_in_ArticlePage : String
  banner_class_in_ArticlePage : Option String
  custom_pageindex_list : Option (List Int)

/-- One article record appended to `contents` by `get_articles`. The
source stores it as a dict with keys `url`, `category`, `title`,
`owner source` (with a space), `content`, `banner`, `image`. -/
structure Record where
  url : String
  category : String
  title : String
  owner_source : String
  content : String
  banner : String
  image : List String
deriving Repr, DecidableEq

/-- The body of one iteration of the per-article loop of `get_articles`
(the `try` block): fetch the article page, extract title and content
(skip on empty title; the `content_return == ''` guard compares a list
with a string and never fires), extract the banner (a raise here fails
the article), extract the images, remove the first occurrence of the
banner from the image list if present, and assemble the record.
`.error` models the `except` that appends the URL to `diff`; `.ok none`
models `continue` (skip, no record). -/
def processArticle (fetch : String → Except Unit Soup) (category owner_source : String)
    (td : TagDict) (articles : String) : Except Unit (Option Record) :=
  match fetch articles with
  | .error e => .error e
  | .ok soup_sep =>
    match local_get_content_sep soup_sep td.title_tag_in_ArticlePage
        td.title_class_in_ArticlePage td.content_area_tag_in_ArticlePage
        td.content_area_class_in_ArticlePage with
    | .error e => .error e
    | .ok (title_return, content_return) =>
      if title_return = "" then .ok none
      else if listEqString content_return "" then .ok none
      else
        match local_get_banner_image_sep soup_sep td.banner_tag_in_ArticlePage
            td.banner_class_in_ArticlePage with
        | .error e => .error e
        | .ok banner_return =>
          match local_get_images_sep soup_sep td.content_area_tag_in_ArticlePage
              td.content_area_class_in_ArticlePage with
          | .error e => .error e
          | .ok image_return =>
            .ok (some
              { url := articles
                category := category
                title := title_return
                owner_source := owner_source
                content := pyJoin " " content_return
                banner := banner_return
                image :=
                  if banner_return ∈ image_return then image_return.erase banner_return
                  else image_return })

/-- One step of the fold over `articles_url` in `get_articles`: a failed
article's URL is appended to `diff`, a skip leaves the state unchanged,
a success appends the record to `contents`. -/
def articleStep (fetch : String → Except Unit Soup) (category owner_source : String)
    (td : TagDict) (st : List Record × List String) (articles : String) :
    List Record × List String :=
  match processArticle fetch category owner_source td articles with
  | .error _ => (st.1, st.2 ++ [articles])
  | .ok none => st
  | .ok (some r) => (st.1 ++ [r], st.2)

/-- Embeds `MultiPage_WebCrawler.get_articles` including both observable
outputs: the returned `contents` list and the `diff` failure list that
the method only prints (`print('different url web type from the other
are :', diff)`). A missing `tag_dict` raises. If `get_pages_url_list`
raises, the `except` prints a diagnostic naming `self.url` but leaves
the local `articles_url` unassigned, so the following
`for articles in articles_url` raises `UnboundLocalError`: the whole
call raises, modelled by `.error ()`. -/
def get_articles_run (fetch : String → Except Unit Soup)
    (urljoin : String → String → String) (urlFormat : Int → String)
    (show_progressbar : Bool) (category owner_source : String)
    (tag_dict : Option TagDict) : Except Unit (List Record × List String) :=
  match tag_dict with
  | none => .error ()
  | some td =>
    match get_pages_url_list fetch urljoin urlFormat show_progressbar
        td.start_page td.end_page td.step_page td.a_class_in_PageList
        td.custom_pageindex_list with
    | .error _ => .error ()
    | .ok articles_url =>
      if show_progressbar then
        .ok ((tqdm articles_url).foldl (articleStep fetch category owner_source td) ([], []))
      else
        .ok (articles_url.foldl (articleStep fetch category owner_source td) ([], []))

/-- The value `get_articles` actually returns to its caller: `contents`
only (`return contents`); `diff` is printed, not returned. -/
def get_articles (fetch : String → Except Unit Soup)
    (urljoin : String → String → String) (urlFormat : Int → String)
    (show_progressbar : Bool) (category owner_source : String)
    (tag_dict : Option TagDict) : Except Unit (List Record) :=
  match get_articles_run fetch urljoin urlFormat show_progressbar
      category owner_source tag_dict with
  | .error e => .error e
  | .ok p => .ok p.1

/-- The record produced for one URL, if any: `some r` exactly when
`processArticle` succeeds with a record. -/
def articleOutcomeRecord (fetch : String → Except Unit Soup)
    (category owner_source : String) (td : TagDict) (u : String) : Option Record :=
  match processArticle fetch category owner_source td u with
  | .ok (some r) => some r
  | _ => none

/-- Whether extraction of one URL raises past all fallbacks (the URL is
then appended to `diff`). -/
def articleFails (fetch : String → Except Unit Soup)
    (category owner_source : String) (td : TagDict) (u : String) : Bool :=
  match processArticle fetch category owner_source td u with
  | .error _ => true
  | _ => false

/-! ### Spec-side definition for the href-resolution claim -/

/-- Character allowed after the first in a URI scheme (RFC 3986):
letters, digits, `+`, `-`, `.`. -/
def isSchemeTailChar (c : Char) : Bool := c.isAlphanum || c = '+' || c = '-' || c = '.'

/-- Helper for `beginsWithScheme`: checks that the remaining characters
form the rest of a scheme followed by `:`. -/
def schemeTail : List Char → Bool
  | [] => false
  | c :: cs => if c = ':' then true else isSchemeTailChar c && schemeTail cs

/-- Modelled from the spec's words ("does not start with a scheme"): the
string begins with a URI scheme, i.e. a letter followed by scheme
characters and a colon, as in `http:`, `https:`, `ftp:`, `mailto:`. This
is the spec-side notion to compare with the source's literal
`startswith('http')` test. -/
def beginsWithScheme (s : String) : Bool :=
  match s.data with
  | [] => false
  | c :: cs => c.isAlpha && schemeTail cs

/-! ### Concrete instances used by witnesses and counterexamples -/

/-- Keep a character list up to and including its last `/`. -/
def keepThroughLastSlash (l : List Char) : List Char :=
  (l.reverse.dropWhile (fun c => c ≠ '/')).reverse

/-- A concrete url-join used to instantiate the opaque `urljoin`
collaborator on concrete inputs: path-relative resolution, the base up to
its last slash followed by the relative href. On the inputs appearing
below it returns what `urllib.parse.urljoin` returns. -/
def urljoinDemo (base rel : String) : String :=
  String.mk (keepThroughLastSlash base.data) ++ rel

/-- An element with given text and stripped strings, no attributes, no
contained images. -/
def elOf (text : String) (stripped : List String) : Element :=
  { text := text, strippedStrings := stripped, attr := fun _ => none, findAllImg := [] }

/-- An image element carrying only a `src` attribute. -/
def imgOf (src : String) : Img :=
  { attr := fun a => if a = "src" then some src else none }

/-- A document with no matching elements at all (an empty page). -/
def emptySoup : Soup :=
  { find := fun _ _ => none, findFirst := none, findAllAHref := fun _ => [], title := none }

/-- A listing-page document: only its pagination anchors matter. -/
def listSoupOf (hrefs : List String) : Soup :=
  { find := fun _ _ => none, findFirst := none, findAllAHref := fun _ => hrefs, title := none }

/-- The content-area element of the article pages below: its text and the
images it contains. -/
def contentElOf (contentText : String) (imgs : List Img) : Element :=
  { text := contentText, strippedStrings := [], attr := fun _ => none, findAllImg := imgs }

/-- The banner image element of the article pages below: a `src`
attribute only. -/
def bannerElOf (src : String) : Element :=
  { text := "", strippedStrings := [],
    attr := fun a => if a = "src" then some src else none, findAllImg := [] }

/-- An article-page document for the selector configuration `td1` below:
`h1` resolves to the title element, `div` to the content area (which also
serves as the image area and carries the contained images), `img` to the
banner image when `bannerSrc` is present. -/
def artSoupOf (titleText : String) (stripped : List String) (contentText : String)
    (imgs : List Img) (bannerSrc : Option String) : Soup :=
  { find := fun tag _cls =>
      if tag = some "h1" then some (elOf titleText stripped)
      else if tag = some "div" then some (contentElOf contentText imgs)
      else if tag = some "img" then bannerSrc.map bannerElOf
      else none
    findFirst := some (elOf contentText [])
    findAllAHref := fun _ => []
    title := some (elOf titleText stripped) }

/-- A fetch collaborator backed by a finite table; URLs outside the table
raise. -/
def fetchOf (table : List (String × Soup)) : String → Except Unit Soup :=
  fun u =>
    match table.find? (fun p => p.1 = u) with
    | some p => .ok p.2
    | none => .error ()

/-- A fetch collaborator that always raises (network down). -/
def fetchFail : String → Except Unit Soup := fun _ => .error ()

/-- A template that always formats to the single listing-page URL `hp1`. -/
def fmt1 : Int → String := fun _ => "hp1"

/-- A template with two listing pages, `hp1` and `hp2`. -/
def fmt2 : Int → String := fun i => if i = 1 then "hp1" else "hp2"

/-- A template used in the href-resolution counterexample. -/
def fmtC7 : Int → String := fun _ => "https://x/p-1"

/-- The selector configuration shared by the concrete scenarios: one
listing page (range 1..1), title under `h1`, content area under
`div.content` (which is also the image area), banner under
`img.hero` read through `src`. -/
def td1 : TagDict :=
  { start_page := 1, end_page := 1, step_page := 1
    a_class_in_PageList := none
    title_tag_in_ArticlePage := some "h1"
    title_class_in_ArticlePage := none
    content_area_tag_in_ArticlePage := some "div"
    content_area_class_in_ArticlePage := some "content"
    banner_tag_in_ArticlePage := "src"
    banner_class_in_ArticlePage := some "hero"
    custom_pageindex_list := none }

/-- Article page whose banner selector matches no image element; title and
content extract fine. -/
def artSoupNoBanner : Soup := artSoupOf "T" ["T"] "hello world" [] none

/-- Article page whose content area text is whitespace-only, with a
banner present. -/
def artSoupBlankContent : Soup := artSoupOf "T" ["T"] " " [] (some "b.jpg")

/-- Article page whose image area contains the banner URL twice. -/
def artSoupDupBanner : Soup :=
  artSoupOf "T" ["T"] "x" [imgOf "b.jpg", imgOf "b.jpg"] (some "b.jpg")

/-- Article page whose image area contains the banner URL once plus
another photo. -/
def artSoupOneBanner : Soup :=
  artSoupOf "T" ["T"] "x" [imgOf "b.jpg", imgOf "photo.png"] (some "b.jpg")

/-- Article page on which extraction raises past all fallbacks: no
selector matches, no document title, no first element. -/
def artSoupBroken : Soup := emptySoup

/-- Article page whose title selector matches but yields an empty joined
title, so the article is skipped. -/
def artSoupEmptyTitle : Soup := artSoupOf "" [] "x" [] (some "b.jpg")

/-- A fully extractable article page. -/
def artSoupGood : Soup := artSoupOf "T" ["T"] "x y" [] (some "b.jpg")

/-- Scenario for the banner-absence claim: one listing page, one article
without a banner image. -/
def fetchC1 : String → Except Unit Soup :=
  fetchOf [("hp1", listSoupOf ["http://a1"]), ("http://a1", artSoupNoBanner)]

/-- Scenario for the empty-content claim. -/
def fetchC3 : String → Except Unit Soup :=
  fetchOf [("hp1", listSoupOf ["http://a1"]), ("http://a1", artSoupBlankContent)]

/-- Scenario for the banner-in-images counterexample (banner occurs twice). -/
def fetchC4 : String → Except Unit Soup :=
  fetchOf [("hp1", listSoupOf ["http://a1"]), ("http://a1", artSoupDupBanner)]

/-- Scenario for the banner-in-images witness (banner occurs once). -/
def fetchC4w : String → Except Unit Soup :=
  fetchOf [("hp1", listSoupOf ["http://a1"]), ("http://a1", artSoupOneBanner)]

/-- A fetch whose single article page fails extraction. -/
def fetchC8a : String → Except Unit Soup :=
  fetchOf [("hp1", listSoupOf ["http://a1"]), ("http://a1", artSoupBroken)]

/-- A fetch whose single article page is skipped (empty title). -/
def fetchC8b : String → Except Unit Soup :=
  fetchOf [("hp1", listSoupOf ["http://a1"]), ("http://a1", artSoupEmptyTitle)]

/-- A fetch with one failing and one succeeding article. -/
def fetchC8w : String → Except Unit Soup :=
  fetchOf [("hp1", listSoupOf ["http://a1", "http://a2"]),
           ("http://a1", artSoupBroken), ("http://a2", artSoupGood)]

/-- Two listing pages carrying the same absolute href. -/
def fetchC6 : String → Except Unit Soup :=
  fetchOf [("hp1", listSoupOf ["http://a1"]), ("hp2", listSoupOf ["http://a1"])]

/-- A listing page whose anchor href starts with the literal string
`http` but carries no scheme. -/
def fetchC7 : String → Except Unit Soup :=
  fetchOf [("https://x/p-1", listSoupOf ["httpfoo/bar"])]

/-- A fetch that succeeds on every URL with a one-anchor listing page. -/
def fetchAlways : String → Except Unit Soup := fun _ => .ok (listSoupOf ["http://a1"])

/-- Document for the coupled-fallback witness: the title selector (`h1`)
matches an element reading `Selector Title`, the content selector does
not match, the document title reads `Doc Title` and the first element
reads `body`. -/
def soupC10 : Soup :=
  { find := fun tag _cls =>
      if tag = some "h1" then some (elOf "Selector Title" ["Selector", "Title"]) else none
    findFirst := some (elOf "body" ["body"])
    findAllAHref := fun _ => []
    title := some (elOf "Doc Title" ["Doc", "Title"]) }

/-- The record `get_articles` emits for `artSoupBlankContent`: its
`content` is the empty string. -/
def recC3 : Record :=
  { url := "http://a1", category := "c", title := "T", owner_source := "o",
    content := "", banner := "b.jpg", image := [] }

/-- The record `get_articles` emits for `artSoupDupBanner`: the image list
still contains the banner URL. -/
def recC4 : Record :=
  { url := "http://a1", category := "c", title := "T", owner_source := "o",
    content := "x", banner := "b.jpg", image := ["b.jpg"] }

/-- The record `get_articles` emits for `artSoupOneBanner`: the single
occurrence of the banner URL was removed from the image list. -/
def recC4w : Record :=
  { url := "http://a1", category := "c", title := "T", owner_source := "o",
    content := "x", banner := "b.jpg", image := ["photo.png"] }

/-! ### Helper lemmas -/

/-- For a positive step, `range(start, end+1, step)` succeeds and its
length is `max 0 ((end - start) // step + 1)` (Python floor division). -/
theorem pyRange_ok_length (s e st : Int) (hst : 0 < st) :
    pyRange s (e + 1) st
      = .ok ((List.range ((e + 1 - s + st - 1).fdiv st).toNat).map
          (fun (k : Nat) => s + st * (k : Int)))
    ∧ (((e + 1 - s + st - 1).fdiv st).toNat : Int) = max 0 ((e - s).fdiv st + 1) := by
  constructor
  · unfold pyRange
    rw [if_neg (by omega), if_pos hst]
  · have h1 : e + 1 - s + st - 1 = (e - s) + 1 * st := by ring
    rw [h1, Int.fdiv_eq_ediv _ (le_of_lt hst), Int.fdiv_eq_ediv _ (le_of_lt hst),
      Int.add_mul_ediv_right _ _ (by omega : st ≠ 0), Int.toNat_eq_max]
    exact max_comm _ _

/-- When every fetch succeeds, the page loop succeeds and performs exactly
one fetch per page index. -/
theorem pagesLoop_total_of_fetch_ok (fetch : String → Except Unit Soup)
    (urljoin : String → String → String) (urlFormat : Int → String) (ac : Option String)
    (hfetch : ∀ u, ∃ soup, fetch u = .ok soup) :
    ∀ (idx : List Int) (acc fetched : List String),
      ∃ pl f, pagesLoop fetch urljoin urlFormat ac idx acc fetched = .ok (pl, f)
        ∧ f.length = fetched.length + idx.length := by
  intro idx
  induction idx with
  | nil => intro acc fetched; exact ⟨acc, fetched, rfl, by simp⟩
  | cons i rest ih =>
    intro acc fetched
    obtain ⟨soup, hs⟩ := hfetch (urlFormat i)
    obtain ⟨pl, f, hloop, hlen⟩ :=
      ih (acc ++ (soup.findAllAHref ac).map (resolveHref urljoin (urlFormat i)))
        (fetched ++ [urlFormat i])
    refine ⟨pl, f, ?_, ?_⟩
    · simp only [pagesLoop, hs]
      exact hloop
    · simp only [hlen, List.length_append, List.length_cons, List.length_nil]
      omega

/-- Every URL accumulated by the page loop is either carried in from the
accumulator or arises from an anchor href of a successfully fetched
listing page, rewritten by `resolveHref`. -/
theorem pagesLoop_mem (fetch : String → Except Unit Soup)
    (urljoin : String → String → String) (urlFormat : Int → String) (ac : Option String) :
    ∀ (idx : List Int) (acc fetched pl f : List String),
      pagesLoop fetch urljoin urlFormat ac idx acc fetched = .ok (pl, f) →
      ∀ u ∈ pl, u ∈ acc ∨ ∃ i soup href, fetch (urlFormat i) = .ok soup
        ∧ href ∈ soup.findAllAHref ac ∧ u = resolveHref urljoin (urlFormat i) href := by
  intro idx
  induction idx with
  | nil =>
    intro acc fetched pl f h u hu
    simp only [pagesLoop, Except.ok.injEq, Prod.mk.injEq] at h
    exact Or.inl (h.1 ▸ hu)
  | cons i rest ih =>
    intro acc fetched pl f h u hu
    rcases hs : fetch (urlFormat i) with e | soup
    · simp only [pagesLoop, hs] at h
      exact Except.noConfusion h
    · simp only [pagesLoop, hs] at h
      rcases ih _ _ _ _ h u hu with hacc | hex
      · rcases List.mem_append.mp hacc with h1 | h2
        · exact Or.inl h1
        · obtain ⟨href, hhref, hres⟩ := List.mem_map.mp h2
          exact Or.inr ⟨i, soup, href, hs, hhref, hres.symm⟩
      · exact Or.inr hex

/-- The fold of the per-article loop, characterised: successes are the
`filterMap` of the per-article outcomes, failures the `filter` of the
raising URLs, each appended to the incoming accumulators in order. -/
theorem foldl_articleStep_eq (fetch : String → Except Unit Soup) (cat own : String)
    (td : TagDict) :
    ∀ (l : List String) (c : List Record) (d : List String),
      l.foldl (articleStep fetch cat own td) (c, d)
        = (c ++ l.filterMap (articleOutcomeRecord fetch cat own td),
           d ++ l.filter (articleFails fetch cat own td)) := by
  intro l
  induction l with
  | nil => intro c d; simp
  | cons u rest ih =>
    intro c d
    rcases hp : processArticle fetch cat own td u with e | o
    · simp only [List.foldl_cons, List.filterMap_cons, List.filter_cons,
        articleStep, articleOutcomeRecord, articleFails, hp, ih]
      simp
    · cases o with
      | none =>
        simp only [List.foldl_cons, List.filterMap_cons, List.filter_cons,
          articleStep, articleOutcomeRecord, articleFails, hp, ih]
        simp
      | some r =>
        simp only [List.foldl_cons, List.filterMap_cons, List.filter_cons,
          articleStep, articleOutcomeRecord, articleFails, hp, ih]
        simp

/-- Inversion for a successful per-article extraction: names the fetched
document and every intermediate extraction result, and exposes the exact
record assembled. -/
theorem processArticle_ok_elim {fetch : String → Except Unit Soup} {cat own : String}
    {td : TagDict} {u : String} {r : Record}
    (h : processArticle fetch cat own td u = .ok (some r)) :
    ∃ soup title content banner imgs,
      fetch u = .ok soup
      ∧ local_get_content_sep soup td.title_tag_in_ArticlePage td.title_class_in_ArticlePage
          td.content_area_tag_in_ArticlePage td.content_area_class_in_ArticlePage
          = .ok (title, content)
      ∧ local_get_banner_image_sep soup td.banner_tag_in_ArticlePage
          td.banner_class_in_ArticlePage = .ok banner
      ∧ local_get_images_sep soup td.content_area_tag_in_ArticlePage
          td.content_area_class_in_ArticlePage = .ok imgs
      ∧ r = { url := u, category := cat, title := title, owner_source := own,
              content := pyJoin " " content, banner := banner,
              image := if banner ∈ imgs then imgs.erase banner else imgs } := by
  rcases hf : fetch u with e | soup <;> simp only [processArticle, hf] at h
  · exact Except.noConfusion h
  rcases hc : local_get_content_sep soup td.title_tag_in_ArticlePage
      td.title_class_in_ArticlePage td.content_area_tag_in_ArticlePage
      td.content_area_class_in_ArticlePage with e | tc <;> simp only [hc] at h
  · exact Except.noConfusion h
  obtain ⟨title, content⟩ := tc
  by_cases ht : title = ""
  · rw [if_pos ht] at h
    simp at h
  rw [if_neg ht] at h
  simp only [listEqString, Bool.false_eq_true, if_false] at h
  rcases hb : local_get_banner_image_sep soup td.banner_tag_in_ArticlePage
      td.banner_class_in_ArticlePage with e | banner <;> simp only [hb] at h
  · exact Except.noConfusion h
  rcases hi : local_get_images_sep soup td.content_area_tag_in_ArticlePage
      td.content_area_class_in_ArticlePage with e | imgs <;> simp only [hi] at h
  · exact Except.noConfusion h
  refine ⟨soup, title, content, banner, imgs, rfl, hc, hb, hi, ?_⟩
  exact (Option.some.inj (Except.ok.inj h)).symm

/-! ### Claim theorems -/

/-- C1: the claim says that when the banner selector matches no image
element the item is tolerated and the record marks the banner as absent.
The code disagrees: `soup.find('img', class_=banner_class)[banner_tag]`
raises on `None`, the per-article `except` catches it, and the article's
URL goes to the failure list with no record emitted. Concretely: on a
page where title and content extract fine but no banner image exists,
`get_articles` produces no record and reports the URL as failed. -/
theorem C1_banner_absence_fails_item :
    local_get_banner_image_sep artSoupNoBanner "src" (some "hero") = .error ()
    ∧ get_articles_run fetchC1 urljoinDemo fmt1 false "c" "o" (some td1)
      = .ok ([], ["http://a1"]) :=
  ⟨rfl, rfl⟩

/-- C2: the claim says a raising `get_pages_url_list` is caught at the
batch boundary and `get_articles` continues with an empty URL set and
still returns its result list. The code's `except` only prints; the
local `articles_url` is never assigned, so the following
`for articles in articles_url` raises `UnboundLocalError` and
`get_articles` raises instead of returning. Concretely: with a fetch
that raises on every URL, page-list resolution raises and the whole
`get_articles` call raises. -/
theorem C2_resolution_failure_raises :
    get_pages_url_list fetchFail urljoinDemo fmt1 false 1 1 1 none none = .error ()
    ∧ get_articles_run fetchFail urljoinDemo fmt1 false "c" "o" (some td1) = .error ()
    ∧ get_articles fetchFail urljoinDemo fmt1 false "c" "o" (some td1) = .error () :=
  ⟨rfl, rfl, rfl⟩

/-- C3: the claim says a record is only emitted when the joined content
is non-empty. The guard `if content_return == '':` compares the token
*list* with a string and is always false, so an article whose content
area text is whitespace-only (tokens `[]`, joined content the empty
string) still yields a record: `get_articles` emits `recC3` whose
`content` field is `""`. The title half of the claim does hold (an empty
title is skipped), but the content half fails. -/
theorem C3_empty_content_emitted :
    get_articles_run fetchC3 urljoinDemo fmt1 false "c" "o" (some td1) = .ok ([recC3], [])
    ∧ recC3.content = "" :=
  ⟨rfl, rfl⟩

/-- C4 counterexample: the claim says `banner ∉ images` regardless of how
many times the banner URL occurs among the extracted image sources. The
code calls `list.remove(banner)`, which removes exactly one occurrence:
on a page whose image area contains `b.jpg` twice with banner `b.jpg`,
the emitted record's image list is `["b.jpg"]` and still contains the
banner. -/
theorem C4_counterexample :
    get_articles_run fetchC4 urljoinDemo fmt1 false "c" "o" (some td1) = .ok ([recC4], [])
    ∧ recC4.banner ∈ recC4.image :=
  ⟨rfl, by decide⟩

/-- C5 counterexample: the claim's fetch-count formula
`floor((end - start) / step) + 1` fails when the range is empty and the
formula is negative: with `start_page = 3`, `end_page = 1`,
`step_page = 1`, the loop performs `0` fetches while the formula gives
`-1`. -/
theorem C5_counterexample :
    (get_pages_url_list_run fetchAlways urljoinDemo fmt1 false 3 1 1 none none).map
      (fun p => (p.2.length : Int)) = .ok 0
    ∧ ((1 : Int) - 3).fdiv 1 + 1 ≠ 0 :=
  ⟨rfl, by decide⟩

/-- C7 counterexample: the claim says every collected href that does not
begin with a scheme is resolved by joining it with the listing page's own
URL. The code instead tests the literal prefix `'http'`: the href
`httpfoo/bar` carries no scheme, yet it is added verbatim, not as the
join `https://x/httpfoo/bar` that the join function returns on it. -/
theorem C7_counterexample :
    get_pages_url_list fetchC7 urljoinDemo fmtC7 false 1 1 1 none none
      = .ok ["httpfoo/bar"]
    ∧ beginsWithScheme "httpfoo/bar" = false
    ∧ urljoinDemo "https://x/p-1" "httpfoo/bar" ≠ "httpfoo/bar" :=
  ⟨rfl, by decide, by decide⟩

/-- C8 counterexample: the claim says `get_articles` returns the pair
`(results, FailureList)`. It returns only `contents`: two runs that
differ exactly in their failure list (one article fails extraction
versus the same article being skipped) return identical values, so the
caller cannot recover the failure list from the return value; the
failure list is only printed. -/
theorem C8_counterexample :
    get_articles fetchC8a urljoinDemo fmt1 false "c" "o" (some td1)
      = get_articles fetchC8b urljoinDemo fmt1 false "c" "o" (some td1)
    ∧ get_articles_run fetchC8a urljoinDemo fmt1 false "c" "o" (some td1)
      = .ok ([], ["http://a1"])
    ∧ get_articles_run fetchC8b urljoinDemo fmt1 false "c" "o" (some td1)
      = .ok ([], []) :=
  ⟨rfl, rfl, rfl⟩

/-- C6: every successful run of `get_pages_url_list` returns a list
without duplicates: the source returns `list(set(pages_list))`. -/
theorem C6_nodup (fetch : String → Except Unit Soup)
    (urljoin : String → String → String) (urlFormat : Int → String)
    (sp : Bool) (s e st : Int) (ac : Option String) (cu : Option (List Int))
    (l : List String)
    (h : get_pages_url_list fetch urljoin urlFormat sp s e st ac cu = .ok l) :
    l.Nodup := by
  unfold get_pages_url_list at h
  rcases hrun : get_pages_url_list_run fetch urljoin urlFormat sp s e st ac cu with e' | p
  · rw [hrun] at h
    exact Except.noConfusion h
  · rw [hrun] at h
    obtain rfl := (Except.ok.inj h).symm
    simpa [pyListSet] using List.nodup_dedup p.1

/-- C6 witness: two listing pages both carrying the anchor
`http://a1`; the run succeeds and the returned list has no duplicates. -/
theorem C6_witness :
    get_pages_url_list fetchC6 urljoinDemo fmt2 false 1 2 1 none none = .ok ["http://a1"]
    ∧ (["http://a1"] : List String).Nodup :=
  ⟨rfl, C6_nodup fetchC6 urljoinDemo fmt2 false 1 2 1 none none ["http://a1"] rfl⟩

/-- C10: when the title selector matches but the content-area selector
does not, `_local_get_content_sep` lands in its `except` branch, which
recomputes the title as the document's own title element's text — the
text from the matched title selector is discarded (the result does not
depend on the matched element `t` at all) — and the content as the first
element's whitespace-split text. -/
theorem C10_coupled_fallback (soup : Soup) (t ti fe : Element)
    (ttag tcls ctag ccls : Option String)
    (hT : soup.find ttag tcls = some t)
    (hC : soup.find ctag ccls = none)
    (hTitle : soup.title = some ti)
    (hFirst : soup.findFirst = some fe) :
    local_get_content_sep soup ttag tcls ctag ccls = .ok (ti.text, pySplit fe.text) := by
  simp only [local_get_content_sep, hT, hC, hTitle, hFirst]

/-- C10 witness: on `soupC10` the title selector matches an element
reading `Selector Title`, yet the result's title is the document title
`Doc Title` and the content falls back to the first element's text. -/
theorem C10_witness :
    local_get_content_sep soupC10 (some "h1") none (some "div") (some "content")
      = .ok ("Doc Title", ["body"]) :=
  C10_coupled_fallback soupC10 (elOf "Selector Title" ["Selector", "Title"])
    (elOf "Doc Title" ["Doc", "Title"]) (elOf "body" ["body"])
    (some "h1") none (some "div") (some "content") rfl rfl rfl rfl

/-- Inversion for a successful page-list run: whichever of the four
progress-bar and custom-list branches was taken, some index list was
iterated by the page loop starting from empty accumulators. -/
theorem get_pages_url_list_run_ok_elim {fetch : String → Except Unit Soup}
    {urljoin : String → String → String} {urlFormat : Int → String}
    {sp : Bool} {s e st : Int} {ac : Option String} {cu : Option (List Int)}
    {pl f : List String}
    (h : get_pages_url_list_run fetch urljoin urlFormat sp s e st ac cu = .ok (pl, f)) :
    ∃ idx, pagesLoop fetch urljoin urlFormat ac idx [] [] = .ok (pl, f) := by
  unfold get_pages_url_list_run at h
  split at h
  · split at h
    · exact ⟨_, h⟩
    · split at h
      · exact Except.noConfusion h
      · exact ⟨_, h⟩
  · split at h
    · exact ⟨_, h⟩
    · split at h
      · exact Except.noConfusion h
      · exact ⟨_, h⟩

/-- C7 (amended): every URL returned by `get_pages_url_list` arises from
an anchor href of a successfully fetched listing page; it is the href
verbatim when the href starts with the literal string `http` (the
source's test), and the join of the listing page's own URL with the href
otherwise. Scheme-bearing hrefs outside `http`/`https` are passed to the
join function; schemeless hrefs that happen to start with `http` are kept
verbatim. -/
theorem C7_amended (fetch : String → Except Unit Soup)
    (urljoin : String → String → String) (urlFormat : Int → String)
    (sp : Bool) (s e st : Int) (ac : Option String) (cu : Option (List Int))
    (l : List String)
    (h : get_pages_url_list fetch urljoin urlFormat sp s e st ac cu = .ok l) :
    ∀ u ∈ l, ∃ i soup href, fetch (urlFormat i) = .ok soup
      ∧ href ∈ soup.findAllAHref ac
      ∧ u = (if pyStartsWith href "http" then href else urljoin (urlFormat i) href) := by
  intro u hu
  unfold get_pages_url_list at h
  rcases hrun : get_pages_url_list_run fetch urljoin urlFormat sp s e st ac cu
    with e' | p <;> rw [hrun] at h
  · exact Except.noConfusion h
  obtain rfl := (Except.ok.inj h).symm
  have hup : u ∈ p.1 := by simpa [pyListSet, List.mem_dedup] using hu
  obtain ⟨pl, f⟩ := p
  obtain ⟨idx, hloop⟩ := get_pages_url_list_run_ok_elim hrun
  rcases pagesLoop_mem fetch urljoin urlFormat ac idx [] [] pl f hloop u hup with h0 | hex
  · exact absurd h0 (List.not_mem_nil u)
  · obtain ⟨i, soup, href, hfet, hhref, hres⟩ := hex
    exact ⟨i, soup, href, hfet, hhref, hres⟩

/-- C7 (amended) witness: the schemeless href `httpfoo/bar`, collected
from the listing page `https://x/p-1`, is returned verbatim because it
starts with the literal string `http`. -/
theorem C7_amended_witness :
    ∃ i soup href, fetchC7 (fmtC7 i) = .ok soup
      ∧ href ∈ soup.findAllAHref none
      ∧ "httpfoo/bar"
        = (if pyStartsWith href "http" then href else urljoinDemo (fmtC7 i) href) :=
  C7_amended fetchC7 urljoinDemo fmtC7 false 1 1 1 none none ["httpfoo/bar"] rfl
    "httpfoo/bar" (by simp)

/-- C8 (amended): per-article failures are caught, the failing URL is
appended to the failure list and the batch continues: over the resolved
URLs, the successes are exactly the `filterMap` of the per-article
outcomes and the failure list exactly the `filter` of the raising URLs.
The failure list is printed at batch end; `get_articles` returns *only*
the results list, not the pair. -/
theorem C8_amended (fetch : String → Except Unit Soup)
    (urljoin : String → String → String) (urlFormat : Int → String)
    (sp : Bool) (cat own : String) (td : TagDict) (urls : List String)
    (hres : get_pages_url_list fetch urljoin urlFormat sp td.start_page td.end_page
        td.step_page td.a_class_in_PageList td.custom_pageindex_list = .ok urls) :
    get_articles_run fetch urljoin urlFormat sp cat own (some td)
      = .ok (urls.filterMap (articleOutcomeRecord fetch cat own td),
             urls.filter (articleFails fetch cat own td))
    ∧ get_articles fetch urljoin urlFormat sp cat own (some td)
      = .ok (urls.filterMap (articleOutcomeRecord fetch cat own td)) := by
  have hrun : get_articles_run fetch urljoin urlFormat sp cat own (some td)
      = .ok (urls.filterMap (articleOutcomeRecord fetch cat own td),
             urls.filter (articleFails fetch cat own td)) := by
    simp only [get_articles_run, hres]
    cases sp <;> simp [tqdm, foldl_articleStep_eq]
  refine ⟨hrun, ?_⟩
  simp only [get_articles, hrun]

/-- C8 (amended) witness: a batch with one failing and one succeeding
article; the run's outputs follow the characterisation. -/
theorem C8_amended_witness :
    get_articles_run fetchC8w urljoinDemo fmt1 false "c" "o" (some td1)
      = .ok ((["http://a1", "http://a2"]).filterMap
               (articleOutcomeRecord fetchC8w "c" "o" td1),
             (["http://a1", "http://a2"]).filter (articleFails fetchC8w "c" "o" td1))
    ∧ get_articles fetchC8w urljoinDemo fmt1 false "c" "o" (some td1)
      = .ok ((["http://a1", "http://a2"]).filterMap
               (articleOutcomeRecord fetchC8w "c" "o" td1)) :=
  C8_amended fetchC8w urljoinDemo fmt1 false "c" "o" td1 ["http://a1", "http://a2"] rfl

/-- C9: `show_progressbar` only changes whether iteration is wrapped in
`tqdm`; the four duplicated loop bodies are otherwise identical, so the
URL list, the records and the failure list are the same with the flag on
or off. -/
theorem C9_progressbar_irrelevant (fetch : String → Except Unit Soup)
    (urljoin : String → String → String) (urlFormat : Int → String)
    (s e st : Int) (ac : Option String) (cu : Option (List Int))
    (cat own : String) (td : Option TagDict) :
    get_pages_url_list fetch urljoin urlFormat true s e st ac cu
      = get_pages_url_list fetch urljoin urlFormat false s e st ac cu
    ∧ get_articles_run fetch urljoin urlFormat true cat own td
      = get_articles_run fetch urljoin urlFormat false cat own td
    ∧ get_articles fetch urljoin urlFormat true cat own td
      = get_articles fetch urljoin urlFormat false cat own td := by
  have hpages : ∀ (s e st : Int) (ac : Option String) (cu : Option (List Int)),
      get_pages_url_list fetch urljoin urlFormat true s e st ac cu
        = get_pages_url_list fetch urljoin urlFormat false s e st ac cu := by
    intro s e st ac cu
    unfold get_pages_url_list get_pages_url_list_run
    simp [tqdm]
  have hrun : get_articles_run fetch urljoin urlFormat true cat own td
      = get_articles_run fetch urljoin urlFormat false cat own td := by
    cases td with
    | none => rfl
    | some td =>
      simp only [get_articles_run]
      rw [hpages]
      cases hg : get_pages_url_list fetch urljoin urlFormat false td.start_page
          td.end_page td.step_page td.a_class_in_PageList td.custom_pageindex_list with
      | error e => simp [hg]
      | ok urls => simp [hg, tqdm]
  refine ⟨hpages s e st ac cu, hrun, ?_⟩
  unfold get_articles
  rw [hrun]

/-- C4 (amended): `image_return.remove(banner_return)` deletes exactly
one occurrence, so `banner ∉ images` holds for a record produced by
`get_articles` provided the banner URL occurred at most once among the
extracted image sources of that article's page. -/
theorem C4_amended (fetch : String → Except Unit Soup)
    (urljoin : String → String → String) (urlFormat : Int → String)
    (sp : Bool) (cat own : String) (td : TagDict)
    (contents : List Record) (diff : List String) (r : Record)
    (hrun : get_articles_run fetch urljoin urlFormat sp cat own (some td)
      = .ok (contents, diff))
    (hr : r ∈ contents)
    (himg : ∀ soup imgs, fetch r.url = .ok soup →
      local_get_images_sep soup td.content_area_tag_in_ArticlePage
        td.content_area_class_in_ArticlePage = .ok imgs →
      imgs.count r.banner ≤ 1) :
    r.banner ∉ r.image := by
  simp only [get_articles_run] at hrun
  rcases hres : get_pages_url_list fetch urljoin urlFormat sp td.start_page td.end_page
      td.step_page td.a_class_in_PageList td.custom_pageindex_list
    with e' | urls <;> simp only [hres] at hrun
  · exact Except.noConfusion hrun
  have hpair : contents = urls.filterMap (articleOutcomeRecord fetch cat own td) := by
    cases sp <;> simp only [Bool.false_eq_true, if_false, if_true, tqdm,
      foldl_articleStep_eq, List.nil_append, Except.ok.injEq, Prod.mk.injEq] at hrun
    · exact hrun.1.symm
    · exact hrun.1.symm
  obtain ⟨u, hu, hout⟩ := List.mem_filterMap.mp (hpair ▸ hr)
  have hp : processArticle fetch cat own td u = .ok (some r) := by
    unfold articleOutcomeRecord at hout
    rcases hq : processArticle fetch cat own td u with e'' | o
    · rw [hq] at hout
      exact Option.noConfusion hout
    · rw [hq] at hout
      cases o with
      | none => exact Option.noConfusion hout
      | some r' => rw [Option.some.inj hout]
  obtain ⟨soup, title, content, banner, imgs, hfet, hc, hb, hi, hrec⟩ :=
    processArticle_ok_elim hp
  have hurl : r.url = u := by rw [hrec]
  have hbanner : r.banner = banner := by rw [hrec]
  have himage : r.image = if banner ∈ imgs then imgs.erase banner else imgs := by rw [hrec]
  have hcount : imgs.count banner ≤ 1 := by
    have := himg soup imgs (by rw [hurl]; exact hfet) hi
    rwa [hbanner] at this
  rw [hbanner, himage]
  by_cases hmem : banner ∈ imgs
  · rw [if_pos hmem]
    have h1 : imgs.count banner = 1 :=
      le_antisymm hcount (List.count_pos_iff.mpr hmem)
    have h0 : (imgs.erase banner).count banner = 0 := by
      rw [List.count_erase_self, h1]
    exact List.count_eq_zero.mp h0
  · rw [if_neg hmem]
    exact hmem

/-- C4 (amended) witness: the banner occurs once among the extracted
image sources, and the emitted record's image list no longer contains
it. -/
theorem C4_amended_witness : recC4w.banner ∉ recC4w.image :=
  C4_amended fetchC4w urljoinDemo fmt1 false "c" "o" td1 [recC4w] [] recC4w rfl
    (by simp)
    (fun soup imgs hf hi => by
      have hf' : Except.ok (ε := Unit) artSoupOneBanner = .ok soup := hf
      obtain rfl : soup = artSoupOneBanner := (Except.ok.inj hf').symm
      have hi' : Except.ok (ε := Unit) ["b.jpg", "photo.png"] = .ok imgs := hi
      obtain rfl : imgs = ["b.jpg", "photo.png"] := (Except.ok.inj hi').symm
      decide)

/-- C5 (amended): with a positive step, no custom index list and a fetch
that succeeds on every URL, `get_pages_url_list` performs
`max 0 (floor((end - start) / step) + 1)` listing-page fetches — the
claimed formula without the clamp at zero, which it needs when the range
is empty by more than one step. -/
theorem C5_amended (fetch : String → Except Unit Soup)
    (urljoin : String → String → String) (urlFormat : Int → String)
    (sp : Bool) (s e st : Int) (ac : Option String)
    (hstep : 0 < st) (hfetch : ∀ u, ∃ soup, fetch u = .ok soup) :
    ∃ pl fetched, get_pages_url_list_run fetch urljoin urlFormat sp s e st ac none
        = .ok (pl, fetched)
      ∧ (fetched.length : Int) = max 0 ((e - s).fdiv st + 1) := by
  obtain ⟨hok, hlen⟩ := pyRange_ok_length s e st hstep
  obtain ⟨pl, f, hloop, hflen⟩ :=
    pagesLoop_total_of_fetch_ok fetch urljoin urlFormat ac hfetch
      ((List.range ((e + 1 - s + st - 1).fdiv st).toNat).map
        (fun (k : Nat) => s + st * (k : Int))) [] []
  refine ⟨pl, f, ?_, ?_⟩
  · unfold get_pages_url_list_run
    cases sp <;>
      simp only [pyTruthy, Bool.false_eq_true, eq_self_iff_true, if_false, if_true,
        hok, tqdm]
    · exact hloop
    · exact hloop
  · rw [hflen]
    simp only [List.length_nil, List.length_map, List.length_range, Nat.zero_add]
    exact hlen

/-- C5 (amended) witness: range 1..2 with step 1 and an always-succeeding
fetch performs `max 0 ((2-1)//1 + 1) = 2` fetches. -/
theorem C5_amended_witness :
    ∃ pl fetched, get_pages_url_list_run fetchAlways urljoinDemo fmt2 false 1 2 1 none none
        = .ok (pl, fetched)
      ∧ (fetched.length : Int) = max 0 (((2 : Int) - 1).fdiv 1 + 1) :=
  C5_amended fetchAlways urljoinDemo fmt2 false 1 2 1 none (by decide)
    (fun _ => ⟨listSoupOf ["http://a1"], rfl⟩)
